import Mathlib

/-!
A shallow embedding of `base_firmware/extract.py`: the prerequisite
resolvers (`prereq_hmx`, `prereq_humidify`, `prereq_unsquashfs`), the
four-step extraction pipeline (`extract`) and the drivers
(`prereq_programs`, `run_extraction`).

Filesystem paths are component lists; the filesystem is the pair of the
set of existing regular files and the set of existing directories.
External commands (`subprocess.call`, the network download, the zip
member extraction) are modelled by an opaque effect function
`Event → FS → FS` supplied as a parameter, and every externally visible
action is recorded in an event trace returned next to the result, so
that theorems can speak about which tools a run invoked.
-/

/-- Absolute filesystem path, as a list of components. -/
abbrev FPath := List String

/-- Render a path as the string the Python code passes around. -/
def pathStr (p : FPath) : String := "/" ++ String.intercalate ("/") p

/-- Filesystem contents: the existing regular files and directories. -/
structure FS where
  files : List FPath
  dirs : List FPath
deriving DecidableEq, Repr

/-- Test modelling `os.path.isfile`. -/
def FS.isFile (fs : FS) (p : FPath) : Bool := decide (p ∈ fs.files)

/-- Test modelling `os.path.isdir`. -/
def FS.isDir (fs : FS) (p : FPath) : Bool := decide (p ∈ fs.dirs)

/-- Effect of `shutil.rmtree p`: every file and directory at or below `p`
is removed. -/
def FS.rmtree (fs : FS) (p : FPath) : FS :=
  { files := fs.files.filter (fun q => !(p.isPrefixOf q)),
    dirs := fs.dirs.filter (fun q => !(p.isPrefixOf q)) }

/-- Re-root one path for a rename of the tree at `src` to `d`: paths at or
below `src` move below `d`, all other paths are untouched. -/
def rerootOne (src d p : FPath) : FPath :=
  if src.isPrefixOf p then d ++ p.drop src.length else p

/-- Final component of a path, as `os.path.basename`. -/
def baseName (p : FPath) : String := p.getLastD ("")

/-- Effect of `shutil.move src dst`: when `dst` is an existing directory
the tree moves into it under its base name, otherwise the tree at `src`
is renamed to `dst`. -/
def FS.move (fs : FS) (src dst : FPath) : FS :=
  let d := if fs.isDir dst then dst ++ [baseName src] else dst
  { files := fs.files.map (rerootOne src d),
    dirs := fs.dirs.map (rerootOne src d) }

/-- Externally visible actions of the script, recorded in order. -/
inductive Event where
  | invoke (cmd : String)
  | chdir (dir : FPath)
  | rmtree (dir : FPath)
  | move (src dst : FPath)
  | download (url : String)
  | writeFile (path : FPath)
  | zipExtract (member : String) (dest : FPath)
  | makedirs (dir : FPath)
  | logMsg (msg : String)
deriving DecidableEq, Repr

/-- Exceptions the script can raise: its own `MissingPrerequisite`
class, the built-in `IOError` raised on an existing destination, and the
built-in `OSError` raised by `os.chdir` on a missing directory. -/
inductive PyExc where
  | MissingPrerequisite (path : String)
  | IOError (msg : String)
  | OSError (path : String)
deriving DecidableEq, Repr

/-- Process state: the filesystem, the process-wide current working
directory, and the effective uid and gid reported by `os.geteuid` and
`os.getegid`. -/
structure St where
  fs : FS
  cwd : FPath
  uid : Nat
  gid : Nat
deriving DecidableEq, Repr

/-- Opaque semantics of the external world: what running one external
command (or download, or zip extraction) does to the filesystem. -/
abbrev Eff := Event → FS → FS

/-- Effect of `os.chdir p`: sets the working directory, or raises
`OSError` when no directory exists at `p`. -/
def os_chdir (st : St) (p : FPath) : Except PyExc St :=
  if st.fs.isDir p then Except.ok { st with cwd := p }
  else Except.error (PyExc.OSError (pathStr p))

/-- Value of the module constant `PROJECT_ROOT`, which the script sets to
`os.path.abspath(".")` at load time. -/
def PROJECT_ROOT : FPath := ["project"]

/-- Value of the module constant `TEMP_DIR`, which the script sets to
`tempfile.mkdtemp()` at load time. -/
def TEMP_DIR : FPath := ["tmp", "tmpscratch"]

/-- Module constant `EXTRACTED_ROOT`. -/
def EXTRACTED_ROOT : FPath := PROJECT_ROOT ++ ["extracted_root"]

/-- The raw image path `extract` expects step 1 to produce. -/
def raw_filename : FPath := TEMP_DIR ++ ["3.hdfbin-3-700000.raw"]

/-- The extracted tree path `extract` expects step 2 to produce. -/
def squashfs_root : FPath := TEMP_DIR ++ ["squashfs-root"]

/-- Canonical local path of the Humax firmware archive member. -/
def hmx_filename : FPath := PROJECT_ROOT ++ ["original_firmware", "hdpvr.hmx"]

/-- Default download URL of `prereq_hmx`. -/
def hdpvr_url : String := "http://www.humax-digital.de/products/hdpvr.zip"

/-- Canonical local path of the humidify binary. -/
def humidify_filename : FPath := PROJECT_ROOT ++ ["bin", "humidify-linux-i386"]

/-- Canonical local path of the unsquashfs binary. -/
def unsquashfs_filename : FPath :=
  PROJECT_ROOT ++ ["firmware-mod-kit-read-only", "trunk", "src", "squashfs-3.0", "unsquashfs"]

/-- Working directory of the configure and make build steps. -/
def fmk_src_dir : FPath := PROJECT_ROOT ++ ["firmware-mod-kit-read-only", "trunk", "src"]

/-- The subversion checkout command of `prereq_unsquashfs`. -/
def svn_cmd : String :=
  "svn checkout http://firmware-mod-kit.googlecode.com/svn/ firmware-mod-kit-read-only"

/-- The `(command, working directory)` table of `prereq_unsquashfs`. -/
def build_commands : List (String × FPath) :=
  [(svn_cmd, PROJECT_ROOT), ("./configure", fmk_src_dir), ("make", fmk_src_dir)]

/-- Embedding of `prereq_hmx`: return the canonical path when the archive
member is already present; otherwise create the destination directory if
needed, download the zip, extract the member, and re-check. -/
def prereq_hmx (eff : Eff) (source_url : String) (st : St) :
    Except PyExc String × St × List Event :=
  if st.fs.isFile hmx_filename then
    (Except.ok (pathStr hmx_filename), st, [])
  else
    let dest_dir : FPath := PROJECT_ROOT ++ ["original_firmware"]
    let zip_source : FPath := TEMP_DIR ++ ["hdpvr.zip"]
    let p1 : St × List Event :=
      if !(st.fs.isDir dest_dir) then
        ({ st with fs := { st.fs with dirs := dest_dir :: st.fs.dirs } },
         [Event.makedirs dest_dir])
      else (st, ([] : List Event))
    let st1 := p1.1
    let st2 := { st1 with fs := eff (Event.download source_url) st1.fs }
    let st3 := { st2 with fs := { st2.fs with files := zip_source :: st2.fs.files } }
    let st4 := { st3 with fs := eff (Event.zipExtract ("hdpvr.hmx") dest_dir) st3.fs }
    let tr := p1.2 ++ [Event.download source_url, Event.writeFile zip_source,
                       Event.zipExtract ("hdpvr.hmx") dest_dir]
    if st4.fs.isFile hmx_filename then (Except.ok (pathStr hmx_filename), st4, tr)
    else (Except.error (PyExc.MissingPrerequisite (pathStr hmx_filename)), st4, tr)

/-- Embedding of `prereq_humidify`: return the canonical path when the
binary is present; otherwise log the manual retrieval guidance and raise
`MissingPrerequisite`. -/
def prereq_humidify (st : St) : Except PyExc String × St × List Event :=
  if st.fs.isFile humidify_filename then
    (Except.ok (pathStr humidify_filename), st, [])
  else
    (Except.error (PyExc.MissingPrerequisite (pathStr humidify_filename)), st,
     [Event.logMsg ("Please visit following URLs to retrieve humidify tool:")])

/-- The `for (cmd, pwd) in commands` loop of `prereq_unsquashfs`:
`os.chdir(pwd)` followed by `call(cmd, shell=True)` for each entry; a
`chdir` to a missing directory raises and aborts the loop. -/
def runCommands (eff : Eff) : List (String × FPath) → St → List Event →
    Except PyExc Unit × St × List Event
  | [], st, tr => (Except.ok (), st, tr)
  | (cmd, pwd) :: rest, st, tr =>
    match os_chdir st pwd with
    | Except.error e => (Except.error e, st, tr)
    | Except.ok st1 =>
      let st2 := { st1 with fs := eff (Event.invoke cmd) st1.fs }
      runCommands eff rest st2 (tr ++ [Event.chdir pwd, Event.invoke cmd])

/-- Embedding of `prereq_unsquashfs`: return the canonical path when the
binary is present; otherwise save the working directory, run the three
build commands, restore the working directory, and re-check. -/
def prereq_unsquashfs (eff : Eff) (st : St) :
    Except PyExc String × St × List Event :=
  if st.fs.isFile unsquashfs_filename then
    (Except.ok (pathStr unsquashfs_filename), st, [])
  else
    let old_cwd := st.cwd
    match runCommands eff build_commands st [] with
    | (Except.error e, st1, tr) => (Except.error e, st1, tr)
    | (Except.ok _, st1, tr) =>
      match os_chdir st1 old_cwd with
      | Except.error e => (Except.error e, st1, tr)
      | Except.ok st2 =>
        let tr2 := tr ++ [Event.chdir old_cwd]
        if st2.fs.isFile unsquashfs_filename then
          (Except.ok (pathStr unsquashfs_filename), st2, tr2)
        else
          (Except.error (PyExc.MissingPrerequisite (pathStr unsquashfs_filename)), st2, tr2)

/-- The step 1 command `"%s -x %s" % (humidify, hmx_file)`. -/
def unpack_cmd (humidify hmx_file : String) : String := humidify ++ " -x " ++ hmx_file

/-- The step 2 command `"sudo %s -n %s" % (unsquashfs, raw_filename)`. -/
def unsquash_cmd (unsquashfs : String) : String :=
  "sudo " ++ unsquashfs ++ " -n " ++ pathStr raw_filename

/-- The step 3 command `"sudo chown %d:%d -R %s" % (my_uid, my_gid, squashfs_root)`. -/
def chown_cmd (uid gid : Nat) : String :=
  "sudo chown " ++ toString uid ++ ":" ++ toString gid ++ " -R " ++ pathStr squashfs_root

/-- Step 1 of `extract` (unpack the hmx file with humidify): if the raw
image is already present the invocation is skipped; otherwise chdir to
the scratch directory, invoke the unpack command, and require the raw
image to exist afterwards. -/
def extractStep1 (eff : Eff) (cmd1 : String) (st1 : St) (tr1 : List Event) :
    Except PyExc Unit × St × List Event :=
  if !(st1.fs.isFile raw_filename) then
    match os_chdir st1 TEMP_DIR with
    | Except.error e => (Except.error e, st1, tr1)
    | Except.ok st2 =>
      let st3 := { st2 with fs := eff (Event.invoke cmd1) st2.fs }
      let tr := tr1 ++ [Event.chdir TEMP_DIR, Event.invoke cmd1]
      if !(st3.fs.isFile raw_filename) then
        (Except.error (PyExc.MissingPrerequisite (pathStr raw_filename)), st3, tr)
      else (Except.ok (), st3, tr)
  else (Except.ok (), st1, tr1)

/-- Steps 2 to 4 of `extract`: chdir to the scratch directory and invoke
unsquashfs (unconditionally), require the extracted tree, chown it, move
it to the destination, and require the destination to exist. -/
def extractRest (eff : Eff) (unsquashfs : String) (extracted_root : FPath)
    (stA : St) (trA : List Event) : Except PyExc FPath × St × List Event :=
  let cmd2 := unsquash_cmd unsquashfs
  match os_chdir stA TEMP_DIR with
  | Except.error e => (Except.error e, stA, trA)
  | Except.ok stB =>
    let stC := { stB with fs := eff (Event.invoke cmd2) stB.fs }
    let trB := trA ++ [Event.chdir TEMP_DIR, Event.invoke cmd2]
    if !(stC.fs.isDir squashfs_root) then
      (Except.error (PyExc.MissingPrerequisite (pathStr squashfs_root)), stC, trB)
    else
      let cmd3 := chown_cmd stC.uid stC.gid
      let stD := { stC with fs := eff (Event.invoke cmd3) stC.fs }
      let trC := trB ++ [Event.invoke cmd3]
      let stE := { stD with fs := stD.fs.move squashfs_root extracted_root }
      let trD := trC ++ [Event.move squashfs_root extracted_root]
      if !(stE.fs.isDir extracted_root) then
        (Except.error (PyExc.MissingPrerequisite (pathStr extracted_root)), stE, trD)
      else (Except.ok extracted_root, stE, trD)

/-- Embedding of `extract`: destination policy, then the four pipeline
steps (unpack with humidify, decompress with unsquashfs, chown, move). -/
def extract (eff : Eff) (hmx_file unsquashfs humidify : String)
    (extracted_root : FPath) (destroy : Bool) (st0 : St) :
    Except PyExc FPath × St × List Event :=
  if st0.fs.isDir extracted_root && destroy == false then
    (Except.error (PyExc.IOError ("Existing: " ++ pathStr extracted_root)), st0, [])
  else
    let p1 : St × List Event :=
      if st0.fs.isDir extracted_root then
        ({ st0 with fs := st0.fs.rmtree extracted_root }, [Event.rmtree extracted_root])
      else (st0, ([] : List Event))
    match extractStep1 eff (unpack_cmd humidify hmx_file) p1.1 p1.2 with
    | (Except.error e, st, tr) => (Except.error e, st, tr)
    | (Except.ok _, stA, trA) => extractRest eff unsquashfs extracted_root stA trA

/-- Boundary behaviour of an `except MissingPrerequisite ... raise` block:
log the failure and re-raise; any other exception propagates uncaught. -/
def logReraise {α : Type} (e : PyExc) (st : St) (tr : List Event) :
    Except PyExc α × St × List Event :=
  match e with
  | PyExc.MissingPrerequisite p =>
      (Except.error (PyExc.MissingPrerequisite p), st,
       tr ++ [Event.logMsg ("Missing prerequisite: " ++ p)])
  | e => (Except.error e, st, tr)

/-- Embedding of `prereq_programs`: resolve the three prerequisites in
order, logging and re-raising a `MissingPrerequisite`. -/
def prereq_programs (eff : Eff) (st : St) :
    Except PyExc (String × String × String) × St × List Event :=
  match prereq_hmx eff hdpvr_url st with
  | (Except.error e, st1, tr1) => logReraise e st1 tr1
  | (Except.ok hmx_file, st1, tr1) =>
    match prereq_unsquashfs eff st1 with
    | (Except.error e, st2, tr2) => logReraise e st2 (tr1 ++ tr2)
    | (Except.ok unsquashfs, st2, tr2) =>
      match prereq_humidify st2 with
      | (Except.error e, st3, tr3) => logReraise e st3 (tr1 ++ tr2 ++ tr3)
      | (Except.ok humidify, st3, tr3) =>
        (Except.ok (hmx_file, unsquashfs, humidify), st3, tr1 ++ tr2 ++ tr3)

/-- Embedding of `run_extraction`: resolve the prerequisites and run
`extract`; a `MissingPrerequisite` is caught and logged, after which the
function falls off its end and returns `None`; any other exception
propagates. -/
def run_extraction (eff : Eff) (st : St) :
    Except PyExc (Option FPath) × St × List Event :=
  match prereq_programs eff st with
  | (Except.error (PyExc.MissingPrerequisite p), st1, tr1) =>
      (Except.ok none, st1, tr1 ++ [Event.logMsg ("Missing prerequisite: " ++ p)])
  | (Except.error e, st1, tr1) => (Except.error e, st1, tr1)
  | (Except.ok (hmx_file, unsquashfs, humidify), st1, tr1) =>
    match extract eff hmx_file unsquashfs humidify EXTRACTED_ROOT false st1 with
    | (Except.error (PyExc.MissingPrerequisite p), st2, tr2) =>
        (Except.ok none, st2, tr1 ++ tr2 ++ [Event.logMsg ("Missing prerequisite: " ++ p)])
    | (Except.error e, st2, tr2) => (Except.error e, st2, tr1 ++ tr2)
    | (Except.ok path, st2, tr2) => (Except.ok (some path), st2, tr1 ++ tr2)

-- Decidable equality for results, so that concrete runs can be settled
-- by the kernel.
deriving instance DecidableEq for Except

/-- The identity world: every external command leaves the filesystem
unchanged (a tool run that fails to produce anything). -/
def effId : Eff := fun _ fs => fs

/-- A state whose filesystem holds only the destination directory. -/
def stDest : St :=
  { fs := { files := [], dirs := [EXTRACTED_ROOT] }, cwd := ["home"], uid := 0, gid := 0 }

/-- A state with an empty filesystem. -/
def stEmpty : St :=
  { fs := { files := [], dirs := [] }, cwd := ["home"], uid := 0, gid := 0 }

/-- A state whose filesystem holds only the scratch directory. -/
def stTemp : St :=
  { fs := { files := [], dirs := [TEMP_DIR] }, cwd := ["home"], uid := 0, gid := 0 }

/-- A resumed scratch area: the raw image and the decompressed tree are
already present, the destination is absent. -/
def stC2 : St :=
  { fs := { files := [raw_filename], dirs := [TEMP_DIR, squashfs_root] },
    cwd := ["home"], uid := 1000, gid := 1000 }

/-- A state where the firmware archive and unsquashfs are present but the
humidify binary is absent. -/
def stC6 : St :=
  { fs := { files := [hmx_filename, unsquashfs_filename], dirs := [] },
    cwd := ["home"], uid := 0, gid := 0 }

/-- A state where the unsquashfs binary is absent and the checkout will
fail to create the source tree. -/
def stC8 : St :=
  { fs := { files := [], dirs := [PROJECT_ROOT, ["home"]] }, cwd := ["home"],
    uid := 0, gid := 0 }

/-- A state where all three prerequisite artifacts are present. -/
def stAll : St :=
  { fs := { files := [hmx_filename, unsquashfs_filename, humidify_filename], dirs := [] },
    cwd := ["home"], uid := 0, gid := 0 }

/-- A state where the build directories exist, so the three build steps
and the working-directory restore all succeed. -/
def stBuild : St :=
  { fs := { files := [], dirs := [PROJECT_ROOT, fmk_src_dir, ["home"]] },
    cwd := ["home"], uid := 0, gid := 0 }

lemma rmtree_isDir_self (fs : FS) (p : FPath) : (fs.rmtree p).isDir p = false := by
  simp [FS.rmtree, FS.isDir, List.mem_filter, List.isPrefixOf_iff_prefix]

lemma move_isDir_src (fs : FS) (src dst : FPath) (hp : dst.isPrefixOf src = false) :
    (fs.move src dst).isDir src = false := by
  simp only [FS.move, FS.isDir, decide_eq_false_iff_not]
  intro hmem
  rw [List.mem_map] at hmem
  obtain ⟨q, hq, hq2⟩ := hmem
  by_cases hpre : src.isPrefixOf q
  · rw [rerootOne, if_pos hpre] at hq2
    have hd : dst <+: (if fs.isDir dst then dst ++ [baseName src] else dst) := by
      split
      · exact List.prefix_append dst [baseName src]
      · exact List.prefix_rfl
    have : dst <+: src := by
      rw [← hq2]
      exact hd.trans (List.prefix_append _ _)
    rw [← List.isPrefixOf_iff_prefix] at this
    simp [this] at hp
  · rw [rerootOne, if_neg hpre] at hq2
    subst hq2
    exact hpre (by simp [List.isPrefixOf_iff_prefix])

lemma extractStep1_shape (eff : Eff) (cmd1 : String) (st1 : St) (tr1 : List Event) :
    extractStep1 eff cmd1 st1 tr1 = (Except.ok (), st1, tr1) ∨
    (extractStep1 eff cmd1 st1 tr1 =
        (Except.error (PyExc.OSError (pathStr TEMP_DIR)), st1, tr1) ∧
      st1.fs.isDir TEMP_DIR = false) ∨
    (∃ r : Except PyExc Unit,
      (r = Except.ok () ∨ r = Except.error (PyExc.MissingPrerequisite (pathStr raw_filename))) ∧
      extractStep1 eff cmd1 st1 tr1 =
        (r, { st1 with cwd := TEMP_DIR, fs := eff (Event.invoke cmd1) st1.fs },
         tr1 ++ [Event.chdir TEMP_DIR, Event.invoke cmd1])) := by
  unfold extractStep1 os_chdir
  by_cases h1 : st1.fs.isFile raw_filename = true
  · left
    simp [h1]
  · by_cases h2 : st1.fs.isDir TEMP_DIR = true
    · right; right
      by_cases h3 : (eff (Event.invoke cmd1) st1.fs).isFile raw_filename = true
      · exact ⟨Except.ok (), Or.inl rfl, by simp [h1, h2, h3]⟩
      · refine ⟨Except.error (PyExc.MissingPrerequisite (pathStr raw_filename)),
          Or.inr rfl, ?_⟩
        simp_all
    · right; left
      constructor
      · simp_all
      · simp_all

lemma extractRest_shape (eff : Eff) (u : String) (er : FPath) (stA : St) (trA : List Event) :
    (extractRest eff u er stA trA = (Except.error (PyExc.OSError (pathStr TEMP_DIR)), stA, trA) ∧
       stA.fs.isDir TEMP_DIR = false) ∨
    ((eff (Event.invoke (unsquash_cmd u)) stA.fs).isDir squashfs_root = false ∧
      extractRest eff u er stA trA =
        (Except.error (PyExc.MissingPrerequisite (pathStr squashfs_root)),
         { stA with cwd := TEMP_DIR, fs := eff (Event.invoke (unsquash_cmd u)) stA.fs },
         trA ++ [Event.chdir TEMP_DIR, Event.invoke (unsquash_cmd u)])) ∨
    (∃ fs4 : FS, fs4 = ((eff (Event.invoke (chown_cmd stA.uid stA.gid))
          (eff (Event.invoke (unsquash_cmd u)) stA.fs)).move squashfs_root er) ∧
      ((fs4.isDir er = false ∧
         extractRest eff u er stA trA =
           (Except.error (PyExc.MissingPrerequisite (pathStr er)),
            { stA with cwd := TEMP_DIR, fs := fs4 },
            trA ++ [Event.chdir TEMP_DIR, Event.invoke (unsquash_cmd u),
                    Event.invoke (chown_cmd stA.uid stA.gid), Event.move squashfs_root er])) ∨
       (fs4.isDir er = true ∧
         extractRest eff u er stA trA =
           (Except.ok er,
            { stA with cwd := TEMP_DIR, fs := fs4 },
            trA ++ [Event.chdir TEMP_DIR, Event.invoke (unsquash_cmd u),
                    Event.invoke (chown_cmd stA.uid stA.gid), Event.move squashfs_root er])))) := by
  unfold extractRest os_chdir
  by_cases h1 : stA.fs.isDir TEMP_DIR = true
  · by_cases h2 : (eff (Event.invoke (unsquash_cmd u)) stA.fs).isDir squashfs_root = true
    · right; right
      refine ⟨_, rfl, ?_⟩
      by_cases h3 : ((eff (Event.invoke (chown_cmd stA.uid stA.gid))
          (eff (Event.invoke (unsquash_cmd u)) stA.fs)).move squashfs_root er).isDir er = true
      · right
        exact ⟨h3, by simp [h1, h2, h3]⟩
      · left
        constructor
        · simp_all
        · simp_all
    · right; left
      constructor
      · simp_all
      · simp_all
  · left
    constructor
    · simp_all
    · simp_all

lemma extract_noDir (eff : Eff) (h u m : String) (er : FPath) (destroy : Bool) (st0 : St)
    (hd : st0.fs.isDir er = false) :
    extract eff h u m er destroy st0 =
      match extractStep1 eff (unpack_cmd m h) st0 [] with
      | (Except.error e, st, tr) => (Except.error e, st, tr)
      | (Except.ok _, stA, trA) => extractRest eff u er stA trA := by
  simp [extract, hd]

lemma extract_destroy (eff : Eff) (h u m : String) (er : FPath) (st0 : St)
    (hd : st0.fs.isDir er = true) :
    extract eff h u m er true st0 =
      match extractStep1 eff (unpack_cmd m h)
          ({ st0 with fs := st0.fs.rmtree er }) [Event.rmtree er] with
      | (Except.error e, st, tr) => (Except.error e, st, tr)
      | (Except.ok _, stA, trA) => extractRest eff u er stA trA := by
  simp [extract, hd]

lemma extract_core_error (eff : Eff) (u cmd1 : String) (er : FPath) (st1 : St)
    (tr1 : List Event) (e : PyExc)
    (hE : (match extractStep1 eff cmd1 st1 tr1 with
           | (Except.error e, st, tr) => (Except.error e, st, tr)
           | (Except.ok _, stA, trA) => extractRest eff u er stA trA).1 = Except.error e) :
    e = PyExc.MissingPrerequisite (pathStr raw_filename) ∨
    e = PyExc.MissingPrerequisite (pathStr squashfs_root) ∨
    e = PyExc.MissingPrerequisite (pathStr er) ∨
    e = PyExc.OSError (pathStr TEMP_DIR) := by
  rcases extractStep1_shape eff cmd1 st1 tr1 with hs | ⟨hs, _⟩ | ⟨r, hr, hs⟩
  · rw [hs] at hE
    simp only [] at hE
    rcases extractRest_shape eff u er st1 tr1 with ⟨hr2, _⟩ | ⟨_, hr2⟩ |
        ⟨fs4, _, ⟨_, hr2⟩ | ⟨_, hr2⟩⟩ <;> rw [hr2] at hE <;> simp_all
  · rw [hs] at hE
    simp_all
  · rcases hr with rfl | rfl
    · rw [hs] at hE
      simp only [] at hE
      rcases extractRest_shape eff u er
          { st1 with cwd := TEMP_DIR, fs := eff (Event.invoke cmd1) st1.fs }
          (tr1 ++ [Event.chdir TEMP_DIR, Event.invoke cmd1]) with ⟨hr2, _⟩ | ⟨_, hr2⟩ |
          ⟨fs4, _, ⟨_, hr2⟩ | ⟨_, hr2⟩⟩ <;> rw [hr2] at hE <;> simp_all
    · rw [hs] at hE
      simp_all

lemma extract_core_cwd (eff : Eff) (u cmd1 c : String) (er : FPath) (st1 : St)
    (tr1 : List Event) (htr : ∀ s, Event.invoke s ∉ tr1)
    (hm : Event.invoke c ∈ (match extractStep1 eff cmd1 st1 tr1 with
           | (Except.error e, st, tr) => (Except.error e, st, tr)
           | (Except.ok _, stA, trA) => extractRest eff u er stA trA).2.2) :
    (match extractStep1 eff cmd1 st1 tr1 with
     | (Except.error e, st, tr) => (Except.error e, st, tr)
     | (Except.ok _, stA, trA) => extractRest eff u er stA trA).2.1.cwd = TEMP_DIR := by
  rcases extractStep1_shape eff cmd1 st1 tr1 with hs | ⟨hs, _⟩ | ⟨r, hr, hs⟩
  · rw [hs] at hm ⊢
    simp only [] at hm ⊢
    rcases extractRest_shape eff u er st1 tr1 with ⟨hr2, _⟩ | ⟨_, hr2⟩ |
        ⟨fs4, _, ⟨_, hr2⟩ | ⟨_, hr2⟩⟩ <;> rw [hr2] at hm ⊢ <;> simp_all
  · rw [hs] at hm ⊢
    simp_all
  · rcases hr with rfl | rfl
    · rw [hs] at hm ⊢
      simp only [] at hm ⊢
      rcases extractRest_shape eff u er
          { st1 with cwd := TEMP_DIR, fs := eff (Event.invoke cmd1) st1.fs }
          (tr1 ++ [Event.chdir TEMP_DIR, Event.invoke cmd1]) with ⟨hr2, _⟩ | ⟨_, hr2⟩ |
          ⟨fs4, _, ⟨_, hr2⟩ | ⟨_, hr2⟩⟩ <;> rw [hr2] at hm ⊢ <;> simp_all
    · rw [hs]

lemma extract_core_ok (eff : Eff) (u cmd1 : String) (er : FPath) (st1 : St)
    (tr1 : List Event) (p : FPath)
    (hp : er.isPrefixOf squashfs_root = false)
    (hok : (match extractStep1 eff cmd1 st1 tr1 with
            | (Except.error e, st, tr) => (Except.error e, st, tr)
            | (Except.ok _, stA, trA) => extractRest eff u er stA trA).1 = Except.ok p) :
    p = er ∧
    (match extractStep1 eff cmd1 st1 tr1 with
     | (Except.error e, st, tr) => (Except.error e, st, tr)
     | (Except.ok _, stA, trA) => extractRest eff u er stA trA).2.1.fs.isDir er = true ∧
    (match extractStep1 eff cmd1 st1 tr1 with
     | (Except.error e, st, tr) => (Except.error e, st, tr)
     | (Except.ok _, stA, trA) => extractRest eff u er stA trA).2.1.fs.isDir
        squashfs_root = false := by
  rcases extractStep1_shape eff cmd1 st1 tr1 with hs | ⟨hs, _⟩ | ⟨r, hr, hs⟩
  · rw [hs] at hok ⊢
    simp only [] at hok ⊢
    rcases extractRest_shape eff u er st1 tr1 with ⟨hr2, _⟩ | ⟨_, hr2⟩ |
        ⟨fs4, hfs4, ⟨_, hr2⟩ | ⟨hdir, hr2⟩⟩ <;> rw [hr2] at hok ⊢ <;> simp_all
    exact move_isDir_src _ _ _ hp
  · rw [hs] at hok
    simp_all
  · rcases hr with rfl | rfl
    · rw [hs] at hok ⊢
      simp only [] at hok ⊢
      rcases extractRest_shape eff u er
          { st1 with cwd := TEMP_DIR, fs := eff (Event.invoke cmd1) st1.fs }
          (tr1 ++ [Event.chdir TEMP_DIR, Event.invoke cmd1]) with ⟨hr2, _⟩ | ⟨_, hr2⟩ |
          ⟨fs4, hfs4, ⟨_, hr2⟩ | ⟨hdir, hr2⟩⟩ <;> rw [hr2] at hok ⊢ <;> simp_all
      exact move_isDir_src _ _ _ hp
    · rw [hs] at hok
      simp_all

lemma extract_core_noDirAfter (eff : Eff) (u cmd1 : String) (er : FPath) (st1 : St)
    (tr1 : List Event) (e : PyExc)
    (h0 : st1.fs.isDir er = false)
    (hpres : ∀ (ev : Event) (fs : FS), FS.isDir fs er = false → FS.isDir (eff ev fs) er = false)
    (hE : (match extractStep1 eff cmd1 st1 tr1 with
           | (Except.error e, st, tr) => (Except.error e, st, tr)
           | (Except.ok _, stA, trA) => extractRest eff u er stA trA).1 = Except.error e) :
    (match extractStep1 eff cmd1 st1 tr1 with
     | (Except.error e, st, tr) => (Except.error e, st, tr)
     | (Except.ok _, stA, trA) => extractRest eff u er stA trA).2.1.fs.isDir er = false := by
  rcases extractStep1_shape eff cmd1 st1 tr1 with hs | ⟨hs, _⟩ | ⟨r, hr, hs⟩
  · rw [hs] at hE ⊢
    simp only [] at hE ⊢
    rcases extractRest_shape eff u er st1 tr1 with ⟨hr2, _⟩ | ⟨_, hr2⟩ |
        ⟨fs4, hfs4, ⟨hdir, hr2⟩ | ⟨_, hr2⟩⟩ <;> rw [hr2] at hE ⊢ <;> simp_all
  · rw [hs]
    simpa using h0
  · rcases hr with rfl | rfl
    · rw [hs] at hE ⊢
      simp only [] at hE ⊢
      rcases extractRest_shape eff u er
          { st1 with cwd := TEMP_DIR, fs := eff (Event.invoke cmd1) st1.fs }
          (tr1 ++ [Event.chdir TEMP_DIR, Event.invoke cmd1]) with ⟨hr2, _⟩ | ⟨_, hr2⟩ |
          ⟨fs4, hfs4, ⟨hdir, hr2⟩ | ⟨_, hr2⟩⟩ <;> rw [hr2] at hE ⊢ <;> simp_all
    · rw [hs]
      simpa using hpres _ _ h0

lemma extract_core_traceHead (eff : Eff) (u cmd1 : String) (er : FPath) (st1 : St)
    (ev0 : Event) :
    (match extractStep1 eff cmd1 st1 [ev0] with
     | (Except.error e, st, tr) => (Except.error e, st, tr)
     | (Except.ok _, stA, trA) => extractRest eff u er stA trA).2.2.head? = some ev0 := by
  rcases extractStep1_shape eff cmd1 st1 [ev0] with hs | ⟨hs, _⟩ | ⟨r, hr, hs⟩
  · rw [hs]
    simp only []
    rcases extractRest_shape eff u er st1 [ev0] with ⟨hr2, _⟩ | ⟨_, hr2⟩ |
        ⟨fs4, hfs4, ⟨_, hr2⟩ | ⟨_, hr2⟩⟩ <;> rw [hr2] <;> simp
  · rw [hs]
    simp
  · rcases hr with rfl | rfl
    · rw [hs]
      simp only []
      rcases extractRest_shape eff u er
          { st1 with cwd := TEMP_DIR, fs := eff (Event.invoke cmd1) st1.fs }
          ([ev0] ++ [Event.chdir TEMP_DIR, Event.invoke cmd1]) with ⟨hr2, _⟩ | ⟨_, hr2⟩ |
          ⟨fs4, hfs4, ⟨_, hr2⟩ | ⟨_, hr2⟩⟩ <;> rw [hr2] <;> simp
    · rw [hs]
      simp

/-- C1 (counterexample): when the destination directory exists and the
destroy flag is false, `extract` raises the built-in `IOError`, not
`MissingPrerequisite`, so the error kind is not used uniformly for the
failed destination-existence precondition. -/
theorem C1_counterexample :
    (extract effId ("a") ("b") ("c") EXTRACTED_ROOT false stDest).1 =
      Except.error (PyExc.IOError ("Existing: /project/extracted_root")) ∧
    (extract effId ("a") ("b") ("c") EXTRACTED_ROOT false stDest).1 ≠
      Except.error (PyExc.MissingPrerequisite ("/project/extracted_root")) := by
  decide

/-- C1 (amended): `MissingPrerequisite` is used for an unresolved
prerequisite, unexpected tool output and an unexpected relocation result,
while the failed destination-existence precondition raises a distinct
`IOError`; every error `extract` raises is the destination `IOError`, a
`MissingPrerequisite` naming the raw image, the extracted tree or the
destination, or the `OSError` of a chdir into a vanished scratch
directory. -/
theorem C1_amended_thm :
    (∀ (eff : Eff) (h u m : String) (er : FPath) (st : St), st.fs.isDir er = true →
       (extract eff h u m er false st).1 =
         Except.error (PyExc.IOError ("Existing: " ++ pathStr er))) ∧
    (∀ st : St, st.fs.isFile humidify_filename = false →
       (prereq_humidify st).1 =
         Except.error (PyExc.MissingPrerequisite (pathStr humidify_filename))) ∧
    (∀ (eff : Eff) (h u m : String) (er : FPath) (destroy : Bool) (st : St) (e : PyExc),
       (extract eff h u m er destroy st).1 = Except.error e →
         e = PyExc.IOError ("Existing: " ++ pathStr er) ∨
         e = PyExc.MissingPrerequisite (pathStr raw_filename) ∨
         e = PyExc.MissingPrerequisite (pathStr squashfs_root) ∨
         e = PyExc.MissingPrerequisite (pathStr er) ∨
         e = PyExc.OSError (pathStr TEMP_DIR)) := by
  refine ⟨?_, ?_, ?_⟩
  · intro eff h u m er st hd
    simp [extract, hd]
  · intro st hf
    simp [prereq_humidify, hf]
  · intro eff h u m er destroy st e hE
    by_cases hd : st.fs.isDir er = true
    · cases destroy with
      | false =>
        simp [extract, hd] at hE
        simp [hE]
      | true =>
        rw [extract_destroy eff h u m er st hd] at hE
        have := extract_core_error eff u (unpack_cmd m h) er
          { st with fs := st.fs.rmtree er } [Event.rmtree er] e hE
        tauto
    · have hd2 : st.fs.isDir er = false := by simp_all
      rw [extract_noDir eff h u m er destroy st hd2] at hE
      have := extract_core_error eff u (unpack_cmd m h) er st [] e hE
      tauto

/-- C1 (witness): the amended statement evaluated at concrete runs. -/
theorem C1_amended_witness :
    (extract effId ("a") ("b") ("c") EXTRACTED_ROOT false stDest).1 =
      Except.error (PyExc.IOError ("Existing: " ++ pathStr EXTRACTED_ROOT)) ∧
    (prereq_humidify stEmpty).1 =
      Except.error (PyExc.MissingPrerequisite (pathStr humidify_filename)) ∧
    (PyExc.OSError (pathStr TEMP_DIR) = PyExc.IOError ("Existing: " ++ pathStr EXTRACTED_ROOT) ∨
     PyExc.OSError (pathStr TEMP_DIR) = PyExc.MissingPrerequisite (pathStr raw_filename) ∨
     PyExc.OSError (pathStr TEMP_DIR) = PyExc.MissingPrerequisite (pathStr squashfs_root) ∨
     PyExc.OSError (pathStr TEMP_DIR) = PyExc.MissingPrerequisite (pathStr EXTRACTED_ROOT) ∨
     PyExc.OSError (pathStr TEMP_DIR) = PyExc.OSError (pathStr TEMP_DIR)) :=
  ⟨C1_amended_thm.1 effId ("a") ("b") ("c") EXTRACTED_ROOT stDest (by decide),
   C1_amended_thm.2.1 stEmpty (by decide),
   C1_amended_thm.2.2 effId ("a") ("b") ("c") EXTRACTED_ROOT false stEmpty
     (PyExc.OSError (pathStr TEMP_DIR)) (by decide)⟩

/-- C2 (counterexample): with the raw image and the decompressed tree both
already present in the scratch area, `extract` still invokes the
decompress tool, so step 2 is not skip-on-resume. -/
theorem C2_counterexample :
    Event.invoke (unsquash_cmd (pathStr unsquashfs_filename)) ∈
      (extract effId (pathStr hmx_filename) (pathStr unsquashfs_filename)
        (pathStr humidify_filename) EXTRACTED_ROOT false stC2).2.2 := by
  decide

/-- C2 (amended): only step 1 is skip-on-resume: when the raw image is
already present the unpack tool is not invoked, while the decompress tool
is invoked unconditionally in the same run. -/
theorem C2_amended_thm (eff : Eff) (h u m : String) (er : FPath) (st : St)
    (hd : st.fs.isDir er = false)
    (ht : st.fs.isDir TEMP_DIR = true)
    (hraw : st.fs.isFile raw_filename = true)
    (hne1 : unpack_cmd m h ≠ unsquash_cmd u)
    (hne2 : unpack_cmd m h ≠ chown_cmd st.uid st.gid) :
    Event.invoke (unpack_cmd m h) ∉ (extract eff h u m er false st).2.2 ∧
    Event.invoke (unsquash_cmd u) ∈ (extract eff h u m er false st).2.2 := by
  simp only [extract, extractStep1, extractRest, hd, ht, hraw, os_chdir, Bool.not_true,
    Bool.false_and, Bool.false_eq_true, if_false, if_true, Bool.and_self]
  split <;> (try split) <;> simp_all

/-- C2 (witness): the amended statement evaluated at the seeded scratch
area with the canonical tool paths. -/
theorem C2_amended_witness :
    Event.invoke (unpack_cmd (pathStr humidify_filename) (pathStr hmx_filename)) ∉
      (extract effId (pathStr hmx_filename) (pathStr unsquashfs_filename)
        (pathStr humidify_filename) EXTRACTED_ROOT false stC2).2.2 ∧
    Event.invoke (unsquash_cmd (pathStr unsquashfs_filename)) ∈
      (extract effId (pathStr hmx_filename) (pathStr unsquashfs_filename)
        (pathStr humidify_filename) EXTRACTED_ROOT false stC2).2.2 :=
  C2_amended_thm effId (pathStr hmx_filename) (pathStr unsquashfs_filename)
    (pathStr humidify_filename) EXTRACTED_ROOT stC2 (by decide) (by decide) (by decide)
    (by decide) (by decide)

/-- C3: when the destination directory exists and the destroy flag is
false, `extract` fails immediately with the distinct destination-exists
`IOError`, performs no action at all (empty trace, no tool invocation)
and leaves the state unchanged. -/
theorem C3_thm (eff : Eff) (h u m : String) (er : FPath) (st : St)
    (hd : st.fs.isDir er = true) :
    extract eff h u m er false st =
      (Except.error (PyExc.IOError ("Existing: " ++ pathStr er)), st, []) := by
  simp [extract, hd]

/-- C3 (witness): the statement evaluated at a concrete pre-existing
destination. -/
theorem C3_witness :
    extract effId ("a") ("b") ("c") EXTRACTED_ROOT false stDest =
      (Except.error (PyExc.IOError ("Existing: " ++ pathStr EXTRACTED_ROOT)), stDest, []) :=
  C3_thm effId ("a") ("b") ("c") EXTRACTED_ROOT stDest (by decide)

/-- C4: when the destination is not an ancestor of the scratch tree and
`extract` returns successfully, the returned path is the destination, the
destination exists in the final state, and the tree at the scratch
location no longer exists; a failed destination check after the move
raises `MissingPrerequisite` (so a success is only returned when both
relocation post-conditions hold). -/
theorem C4_thm (eff : Eff) (h u m : String) (er : FPath) (destroy : Bool) (st : St)
    (p : FPath)
    (hp : er.isPrefixOf squashfs_root = false)
    (hok : (extract eff h u m er destroy st).1 = Except.ok p) :
    p = er ∧ (extract eff h u m er destroy st).2.1.fs.isDir er = true ∧
      (extract eff h u m er destroy st).2.1.fs.isDir squashfs_root = false := by
  by_cases hd : st.fs.isDir er = true
  · cases destroy with
    | false => simp [extract, hd] at hok
    | true =>
      rw [extract_destroy eff h u m er st hd] at hok ⊢
      exact extract_core_ok eff u (unpack_cmd m h) er
        { st with fs := st.fs.rmtree er } [Event.rmtree er] p hp hok
  · have hd2 : st.fs.isDir er = false := by simp_all
    rw [extract_noDir eff h u m er destroy st hd2] at hok ⊢
    exact extract_core_ok eff u (unpack_cmd m h) er st [] p hp hok

/-- C4 (witness): the statement evaluated at a concrete successful run. -/
theorem C4_witness :
    EXTRACTED_ROOT = EXTRACTED_ROOT ∧
    (extract effId ("a") ("b") ("c") EXTRACTED_ROOT false stC2).2.1.fs.isDir
        EXTRACTED_ROOT = true ∧
    (extract effId ("a") ("b") ("c") EXTRACTED_ROOT false stC2).2.1.fs.isDir
        squashfs_root = false :=
  C4_thm effId ("a") ("b") ("c") EXTRACTED_ROOT false stC2 EXTRACTED_ROOT
    (by decide) (by decide)

/-- C5: if the raw image is absent before step 1 and still absent after
the unpack invocation, `extract` raises `MissingPrerequisite` carrying
exactly the expected raw image path, and the whole run consists of just
the chdir and the unpack invocation, so the decompress tool is never
invoked. -/
theorem C5_thm (eff : Eff) (h u m : String) (er : FPath) (destroy : Bool) (st : St)
    (hd : st.fs.isDir er = false)
    (ht : st.fs.isDir TEMP_DIR = true)
    (hraw : st.fs.isFile raw_filename = false)
    (hafter : (eff (Event.invoke (unpack_cmd m h)) st.fs).isFile raw_filename = false) :
    extract eff h u m er destroy st =
      (Except.error (PyExc.MissingPrerequisite (pathStr raw_filename)),
       { st with cwd := TEMP_DIR, fs := eff (Event.invoke (unpack_cmd m h)) st.fs },
       [Event.chdir TEMP_DIR, Event.invoke (unpack_cmd m h)]) := by
  simp [extract, extractStep1, os_chdir, hd, ht, hraw, hafter]

/-- C5 (witness): the statement evaluated at a run whose unpack tool
produces nothing. -/
theorem C5_witness :
    extract effId ("a") ("b") ("c") EXTRACTED_ROOT false stTemp =
      (Except.error (PyExc.MissingPrerequisite (pathStr raw_filename)),
       { stTemp with
         cwd := TEMP_DIR
         fs := effId (Event.invoke (unpack_cmd ("c") ("a"))) stTemp.fs },
       [Event.chdir TEMP_DIR, Event.invoke (unpack_cmd ("c") ("a"))]) :=
  C5_thm effId ("a") ("b") ("c") EXTRACTED_ROOT false stTemp (by decide) (by decide)
    (by decide) (by decide)

/-- C6 (code bug): with the firmware archive and unsquashfs present but
the humidify binary absent, `prereq_programs` re-raises the
`MissingPrerequisite`, but `run_extraction` catches it, logs it and
returns `None` normally instead of propagating it to its caller, leaving
the `except MissingPrerequisite` handler of the `__main__` block
unreachable. -/
theorem C6_code_bug_thm :
    (prereq_programs effId stC6).1 =
      Except.error (PyExc.MissingPrerequisite (pathStr humidify_filename)) ∧
    (run_extraction effId stC6).1 = Except.ok none := by
  decide

/-- C7: each of the three prerequisite resolvers, called when its
artifact is already present at the canonical local path, returns that
path with an unchanged state and an empty trace (no download, build,
checkout or any other side effect), so a repeated call behaves
identically. -/
theorem C7_thm :
    (∀ (eff : Eff) (url : String) (st : St), st.fs.isFile hmx_filename = true →
       prereq_hmx eff url st = (Except.ok (pathStr hmx_filename), st, [])) ∧
    (∀ (eff : Eff) (st : St), st.fs.isFile unsquashfs_filename = true →
       prereq_unsquashfs eff st = (Except.ok (pathStr unsquashfs_filename), st, [])) ∧
    (∀ st : St, st.fs.isFile humidify_filename = true →
       prereq_humidify st = (Except.ok (pathStr humidify_filename), st, [])) := by
  refine ⟨?_, ?_, ?_⟩ <;> intros <;>
    simp_all [prereq_hmx, prereq_unsquashfs, prereq_humidify]

/-- C7 (witness): the statement evaluated with all three artifacts
present. -/
theorem C7_witness :
    prereq_hmx effId hdpvr_url stAll = (Except.ok (pathStr hmx_filename), stAll, []) ∧
    prereq_unsquashfs effId stAll = (Except.ok (pathStr unsquashfs_filename), stAll, []) ∧
    prereq_humidify stAll = (Except.ok (pathStr humidify_filename), stAll, []) :=
  ⟨C7_thm.1 effId hdpvr_url stAll (by decide), C7_thm.2.1 effId stAll (by decide),
   C7_thm.2.2 stAll (by decide)⟩

/-- C8 (counterexample): when the checkout command fails to create the
source tree, the chdir of the next build step raises `OSError` and
`prereq_unsquashfs` exits with the working directory left at
`PROJECT_ROOT` rather than restored, so the restore does not happen for
every outcome of the build steps. -/
theorem C8_counterexample :
    (prereq_unsquashfs effId stC8).2.1.cwd = PROJECT_ROOT ∧
    (prereq_unsquashfs effId stC8).2.1.cwd ≠ stC8.cwd := by
  decide

/-- C8 (amended): whenever each chdir target of the build exists when it
is reached — the project root at the start, the source directory after
the checkout and after configure, and the original working directory at
the end — `prereq_unsquashfs` restores the original working directory
regardless of what else the three build commands did (their exit status
is never inspected). -/
theorem C8_amended_thm (eff : Eff) (st : St)
    (h1 : st.fs.isDir PROJECT_ROOT = true)
    (h2 : (eff (Event.invoke svn_cmd) st.fs).isDir fmk_src_dir = true)
    (h3 : (eff (Event.invoke ("./configure")) (eff (Event.invoke svn_cmd) st.fs)).isDir
        fmk_src_dir = true)
    (h4 : (eff (Event.invoke ("make")) (eff (Event.invoke ("./configure"))
        (eff (Event.invoke svn_cmd) st.fs))).isDir st.cwd = true) :
    (prereq_unsquashfs eff st).2.1.cwd = st.cwd := by
  by_cases hf : st.fs.isFile unsquashfs_filename
  · simp [prereq_unsquashfs, hf]
  · simp only [prereq_unsquashfs, hf, Bool.false_eq_true, if_false,
      build_commands, runCommands, os_chdir, h1, h2, h3, h4, if_true]
    split <;> simp

/-- C8 (witness): the amended statement evaluated at a state whose build
directories all exist. -/
theorem C8_amended_witness :
    (prereq_unsquashfs effId stBuild).2.1.cwd = stBuild.cwd :=
  C8_amended_thm effId stBuild (by decide) (by decide) (by decide) (by decide)

/-- C9: when the destination directory exists and the destroy flag is
true, the very first action of `extract` is the removal of the
destination tree, and (for any tool behaviour that does not itself create
the destination) every failing run ends with no directory at the
destination — the old contents are not restored. -/
theorem C9_thm (eff : Eff) (h u m : String) (er : FPath) (st : St)
    (hd : st.fs.isDir er = true)
    (hpres : ∀ (ev : Event) (fs : FS), FS.isDir fs er = false → FS.isDir (eff ev fs) er = false) :
    (extract eff h u m er true st).2.2.head? = some (Event.rmtree er) ∧
    ∀ e : PyExc, (extract eff h u m er true st).1 = Except.error e →
      (extract eff h u m er true st).2.1.fs.isDir er = false := by
  rw [extract_destroy eff h u m er st hd]
  constructor
  · exact extract_core_traceHead eff u (unpack_cmd m h) er
      { st with fs := st.fs.rmtree er } (Event.rmtree er)
  · intro e hE
    exact extract_core_noDirAfter eff u (unpack_cmd m h) er
      { st with fs := st.fs.rmtree er } [Event.rmtree er] e
      (rmtree_isDir_self st.fs er) hpres hE

/-- C9 (witness): the statement evaluated at a concrete destroy run that
fails after the removal. -/
theorem C9_witness :
    (extract effId ("a") ("b") ("c") EXTRACTED_ROOT true stDest).2.2.head? =
      some (Event.rmtree EXTRACTED_ROOT) ∧
    (extract effId ("a") ("b") ("c") EXTRACTED_ROOT true stDest).2.1.fs.isDir
      EXTRACTED_ROOT = false :=
  ⟨(C9_thm effId ("a") ("b") ("c") EXTRACTED_ROOT stDest (by decide)
      (fun _ _ hx => hx)).1,
   (C9_thm effId ("a") ("b") ("c") EXTRACTED_ROOT stDest (by decide)
      (fun _ _ hx => hx)).2 (PyExc.OSError (pathStr TEMP_DIR)) (by decide)⟩

/-- C10: every run of `extract` whose trace contains a tool invocation —
in particular any run that reaches the unpack invocation of step 1 or the
decompress invocation of step 2 — ends with the process working directory
equal to the scratch directory, never restored, whether the run succeeds
or fails. -/
theorem C10_thm (eff : Eff) (h u m : String) (er : FPath) (destroy : Bool) (st : St)
    (c : String)
    (hm : Event.invoke c ∈ (extract eff h u m er destroy st).2.2) :
    (extract eff h u m er destroy st).2.1.cwd = TEMP_DIR := by
  by_cases hd : st.fs.isDir er = true
  · cases destroy with
    | false =>
      simp [extract, hd] at hm
    | true =>
      rw [extract_destroy eff h u m er st hd] at hm ⊢
      exact extract_core_cwd eff u (unpack_cmd m h) c er
        { st with fs := st.fs.rmtree er } [Event.rmtree er] (by simp) hm
  · have hd2 : st.fs.isDir er = false := by simp_all
    rw [extract_noDir eff h u m er destroy st hd2] at hm ⊢
    exact extract_core_cwd eff u (unpack_cmd m h) c er st [] (by simp) hm

/-- C10 (witness): the statement evaluated at a failing run that invoked
the unpack tool from a different starting directory. -/
theorem C10_witness :
    (extract effId ("a") ("b") ("c") EXTRACTED_ROOT false stTemp).2.1.cwd = TEMP_DIR :=
  C10_thm effId ("a") ("b") ("c") EXTRACTED_ROOT false stTemp (unpack_cmd ("c") ("a"))
    (by decide)
